import Mathlib

/-!
Verification of the mock-test scoring and session subsystem of the
odigyan-backend repository.

The development shallowly embeds the relevant JavaScript source:
* `calculateTestScore` from `src/api/utils/helpers.js` (exposed through
  `src/api/index.js`),
* the mock-test route handlers (`start`, `answer`, `submit`) from
  `src/api/mocktest.js`, modelled as pure state transformers over an
  explicit server state (Firestore collections become lists),
* the strict question-text parser from the serverless questions endpoint
  (`src/unnamed/part_003`) and the lenient variant from
  `src/api/mocktests.js`.

JavaScript numbers are modelled as exact rationals extended with the
special values `NaN` and `±Infinity` (`JSNum`); machine floating point
rounding is not modelled, all concrete values in the claims are exactly
representable.  JavaScript strings are modelled as `String` (lists of
characters); the string builtins used by the source (`split`, `trim`,
`substring`, `startsWith`, `toUpperCase`, `toLowerCase`) are given
structural models over the character list.
-/

/-- A JavaScript number: either NaN, an infinity, or a finite value
(modelled exactly as a rational). -/
inductive JSNum where
  | nan : JSNum
  | posInf : JSNum
  | negInf : JSNum
  | val (q : ℚ) : JSNum
deriving DecidableEq, Repr

/-- Model of JavaScript `Math.round` on finite values: round half towards
positive infinity, i.e. `⌊x + 1/2⌋`. -/
def jsRound (q : ℚ) : ℚ := ((⌊q + 1/2⌋ : ℤ) : ℚ)

/-- Model of JavaScript division `a / b` on finite operands: division by
zero yields NaN (for `0 / 0`) or a signed infinity. -/
def jsDivQ (a b : ℚ) : JSNum :=
  if b = 0 then
    (if a = 0 then JSNum.nan else if a > 0 then JSNum.posInf else JSNum.negInf)
  else JSNum.val (a / b)

/-- Model of JavaScript multiplication of a number by a finite constant. -/
def jsMulC : JSNum → ℚ → JSNum
  | JSNum.nan, _ => JSNum.nan
  | JSNum.posInf, c => if c > 0 then JSNum.posInf else if c < 0 then JSNum.negInf else JSNum.nan
  | JSNum.negInf, c => if c > 0 then JSNum.negInf else if c < 0 then JSNum.posInf else JSNum.nan
  | JSNum.val q, c => JSNum.val (q * c)

/-- Model of JavaScript `Math.round` on a general number: NaN and the
infinities are fixed points. -/
def jsRoundN : JSNum → JSNum
  | JSNum.val q => JSNum.val (jsRound q)
  | x => x

/-- A question as embedded in a test session (the shape produced by
`generateMockTestQuestions` in `src/api/mocktest.js` and consumed by
`calculateTestScore`).  Fields that may be absent on the JavaScript object
are `Option`s. -/
structure Question where
  text : String
  options : List String
  answer : Option ℤ
  explanation : String
  sectionName : String
  marks : Option ℚ
  negativeMarks : Option ℚ
deriving DecidableEq, Repr

/-- The result record returned by `calculateTestScore`
(`src/api/index.js`, lines 336-343). -/
structure ScoreResult where
  correct : ℕ
  total : ℕ
  totalMarks : ℚ
  obtainedMarks : ℚ
  percentage : JSNum
  wrong : ℤ
deriving DecidableEq, Repr

/-- The JavaScript expression `question.marks || 1`: the marks value when
it is set and nonzero (zero is falsy), and 1 otherwise. -/
def effMarks (q : Question) : ℚ :=
  match q.marks with
  | some m => if m = 0 then 1 else m
  | none => 1

/-- The `questions.forEach((question, index) => ...)` loop of
`calculateTestScore` (`src/api/index.js`, lines 318-329), carried out with
explicit accumulators `(correct, totalMarks, obtainedMarks)` and the
running index `i`. -/
def scoreLoop (answers : ℕ → Option ℤ) :
    List Question → ℕ → ℕ → ℚ → ℚ → ℕ × ℚ × ℚ
  | [], _, correct, totalMarks, obtainedMarks => (correct, totalMarks, obtainedMarks)
  | q :: rest, i, correct, totalMarks, obtainedMarks =>
    let totalMarks' := totalMarks + effMarks q
    match answers i with
    | none => scoreLoop answers rest (i + 1) correct totalMarks' obtainedMarks
    | some a =>
      if q.answer = some a then
        scoreLoop answers rest (i + 1) (correct + 1) totalMarks' (obtainedMarks + effMarks q)
      else
        match q.negativeMarks with
        | some m =>
          if m = 0 then scoreLoop answers rest (i + 1) correct totalMarks' obtainedMarks
          else scoreLoop answers rest (i + 1) correct totalMarks' (obtainedMarks - m)
        | none => scoreLoop answers rest (i + 1) correct totalMarks' obtainedMarks

/-- Embedding of `calculateTestScore(answers, questions)` from
`src/api/index.js`, lines 313-344.  The `answers` object is modelled as a
partial map from question index to chosen option index. -/
def calculateTestScore (answers : ℕ → Option ℤ) (questions : List Question) : ScoreResult :=
  let acc := scoreLoop answers questions 0 0 0 0
  let correct := acc.1
  let totalMarks := acc.2.1
  let obtainedMarks := max 0 acc.2.2
  let percentage := jsRoundN (jsMulC (jsDivQ obtainedMarks totalMarks) 100)
  { correct := correct
    total := questions.length
    totalMarks := totalMarks
    obtainedMarks := obtainedMarks
    percentage := percentage
    wrong := (questions.length : ℤ) - correct }

/-- The two-question scenario from the specification:
marks 1, negative marks 0.25, correct answers at option indices 0 and 1. -/
def scenarioQuestions : List Question :=
  [ { text := "q1", options := ["o0", "o1", "o2", "o3"], answer := some 0,
      explanation := "", sectionName := "", marks := some 1, negativeMarks := some (1/4) },
    { text := "q2", options := ["o0", "o1", "o2", "o3"], answer := some 1,
      explanation := "", sectionName := "", marks := some 1, negativeMarks := some (1/4) } ]

/-- The answers mapping `{0: 0, 1: 2}` from the specification scenario. -/
def scenarioAnswers : ℕ → Option ℤ :=
  fun i => if i = 0 then some 0 else if i = 1 then some 2 else none

example :
    calculateTestScore scenarioAnswers scenarioQuestions =
      { correct := 1, total := 2, totalMarks := 2, obtainedMarks := 3/4,
        percentage := JSNum.val 38, wrong := 1 } := by
  norm_num [calculateTestScore, scoreLoop, scenarioQuestions, scenarioAnswers,
    effMarks, jsDivQ, jsMulC, jsRoundN, jsRound]

example :
    calculateTestScore (fun _ => none) [] =
      { correct := 0, total := 0, totalMarks := 0, obtainedMarks := 0,
        percentage := JSNum.nan, wrong := 0 } := by
  norm_num [calculateTestScore, scoreLoop, jsDivQ, jsMulC, jsRoundN, jsRound]

/-- Whether the question at index `i` was answered and answered correctly
(the `answers[index] === question.answer` test of the score loop). -/
def isCorrectAt (answers : ℕ → Option ℤ) (i : ℕ) (q : Question) : Bool :=
  match answers i with
  | some a => decide (q.answer = some a)
  | none => false

/-- Whether the question at index `i` was answered but answered wrongly. -/
def isWrongAt (answers : ℕ → Option ℤ) (i : ℕ) (q : Question) : Bool :=
  match answers i with
  | some a => decide (q.answer ≠ some a)
  | none => false

/-- Sum of the per-question marks as the code counts them
(`question.marks || 1`: default 1 if unset or zero). -/
def sumEffMarks (questions : List Question) : ℚ :=
  (questions.map effMarks).sum

/-- The claim's reading of the total marks: sum of `marks` with default 1
only when the field is unset (an explicit 0 is kept). -/
def claimTotalMarks (questions : List Question) : ℚ :=
  (questions.map (fun q => q.marks.getD 1)).sum

/-- Number of answered indices whose chosen option equals the question's
answer index. -/
def correctCount (answers : ℕ → Option ℤ) (questions : List Question) : ℕ :=
  ((questions.enum).filter (fun p => isCorrectAt answers p.1 p.2)).length

/-- Sum of the marks of the correctly answered questions (marks as the
code counts them). -/
def correctMarksSum (answers : ℕ → Option ℤ) (questions : List Question) : ℚ :=
  ((questions.enum).map
    (fun p => if isCorrectAt answers p.1 p.2 then effMarks p.2 else 0)).sum

/-- Sum of the negative marks of the attempted-but-wrong questions (0 for
a question that does not define `negativeMarks`). -/
def negMarksSum (answers : ℕ → Option ℤ) (questions : List Question) : ℚ :=
  ((questions.enum).map
    (fun p => if isWrongAt answers p.1 p.2 then p.2.negativeMarks.getD 0 else 0)).sum

theorem sum_map_sub {α : Type} (f g : α → ℚ) (l : List α) :
    (l.map (fun x => f x - g x)).sum = (l.map f).sum - (l.map g).sum := by
  induction l with
  | nil => simp
  | cons a l ih => simp [ih]; ring

/-- The score loop computes, from any starting accumulators, the starting
values plus the per-question contributions summed over the list enumerated
from the starting index. -/
theorem scoreLoop_eq (answers : ℕ → Option ℤ) (qs : List Question) :
    ∀ (i : ℕ) (c : ℕ) (t o : ℚ),
    scoreLoop answers qs i c t o =
      (c + ((List.enumFrom i qs).filter (fun p => isCorrectAt answers p.1 p.2)).length,
       t + (qs.map effMarks).sum,
       o + ((List.enumFrom i qs).map (fun p =>
              (if isCorrectAt answers p.1 p.2 then effMarks p.2 else 0)
              - (if isWrongAt answers p.1 p.2 then p.2.negativeMarks.getD 0 else 0))).sum) := by
  induction qs with
  | nil => intro i c t o; simp [scoreLoop]
  | cons q rest ih =>
    intro i c t o
    cases h : answers i with
    | none =>
      simp [scoreLoop, h, ih, List.enumFrom, isCorrectAt, isWrongAt]
      and_intros <;> first | trivial | ring
    | some a =>
      by_cases hq : q.answer = some a
      · simp [scoreLoop, h, hq, ih, List.enumFrom, isCorrectAt, isWrongAt]
        and_intros <;> first | trivial | ring
      · cases hn : q.negativeMarks with
        | none =>
          simp [scoreLoop, h, hq, hn, ih, List.enumFrom, isCorrectAt, isWrongAt]
          and_intros <;> first | trivial | ring
        | some m =>
          by_cases hm : m = 0
          · simp [scoreLoop, h, hq, hn, hm, ih, List.enumFrom, isCorrectAt, isWrongAt]
            and_intros <;> first | trivial | ring
          · simp [scoreLoop, h, hq, hn, hm, ih, List.enumFrom, isCorrectAt, isWrongAt]
            and_intros <;> first | trivial | ring

theorem diff_sum_eq (answers : ℕ → Option ℤ) (l : List (ℕ × Question)) :
    (l.map (fun p => (if isCorrectAt answers p.1 p.2 then effMarks p.2 else 0)
        - (if isWrongAt answers p.1 p.2 then p.2.negativeMarks.getD 0 else 0))).sum
    = (l.map (fun p => if isCorrectAt answers p.1 p.2 then effMarks p.2 else 0)).sum
      - (l.map (fun p => if isWrongAt answers p.1 p.2 then p.2.negativeMarks.getD 0 else 0)).sum := by
  induction l with
  | nil => simp
  | cons a l ih =>
    simp only [List.map_cons, List.sum_cons, ih]
    ring

/-- Closed form of `calculateTestScore`: every field expressed as a sum or
count over the question list. -/
theorem calculateTestScore_components (answers : ℕ → Option ℤ) (questions : List Question) :
    calculateTestScore answers questions =
      { correct := correctCount answers questions,
        total := questions.length,
        totalMarks := sumEffMarks questions,
        obtainedMarks := max 0 (correctMarksSum answers questions - negMarksSum answers questions),
        percentage := jsRoundN (jsMulC (jsDivQ
          (max 0 (correctMarksSum answers questions - negMarksSum answers questions))
          (sumEffMarks questions)) 100),
        wrong := (questions.length : ℤ) - correctCount answers questions } := by
  unfold calculateTestScore
  rw [scoreLoop_eq]
  simp only [correctCount, sumEffMarks, correctMarksSum, negMarksSum, List.enum,
    diff_sum_eq, zero_add]

/-- C1 (amended): for every answers mapping and questions list,
`calculateTestScore` returns `total` = number of questions, `totalMarks` =
sum of marks where a question's marks count as 1 when unset or set to 0
(the code computes `question.marks || 1`, so an explicit 0 is replaced by
1 as well — this is the one place the original claim's "default 1 if
unset" fails), `correct` = number of answered indices whose chosen option
equals the question's answer index, `obtainedMarks` = (sum of the
code-counted marks of correctly answered questions) minus (negativeMarks
of each attempted-but-wrong question that defines them), clamped below at
0, `wrong` = total - correct over all questions, and, when totalMarks is
nonzero, `percentage` = round(obtainedMarks / totalMarks * 100).  In
particular the specification's two-question scenario returns correct=1,
obtainedMarks=0.75, totalMarks=2, percentage=38. -/
theorem calculateTestScore_amended_claim (answers : ℕ → Option ℤ) (questions : List Question) :
    (calculateTestScore answers questions).total = questions.length ∧
    (calculateTestScore answers questions).totalMarks = sumEffMarks questions ∧
    (calculateTestScore answers questions).correct = correctCount answers questions ∧
    (calculateTestScore answers questions).obtainedMarks
      = max 0 (correctMarksSum answers questions - negMarksSum answers questions) ∧
    (calculateTestScore answers questions).wrong
      = (questions.length : ℤ) - (correctCount answers questions : ℤ) ∧
    (sumEffMarks questions ≠ 0 →
      (calculateTestScore answers questions).percentage
        = JSNum.val (jsRound ((calculateTestScore answers questions).obtainedMarks
            / sumEffMarks questions * 100))) ∧
    calculateTestScore scenarioAnswers scenarioQuestions =
      { correct := 1, total := 2, totalMarks := 2, obtainedMarks := 3/4,
        percentage := JSNum.val 38, wrong := 1 } := by
  rw [calculateTestScore_components]
  refine ⟨rfl, rfl, rfl, rfl, rfl, ?_, ?_⟩
  · intro htm
    simp [jsDivQ, jsMulC, jsRoundN, htm]
  · norm_num [calculateTestScore, scoreLoop, scenarioQuestions, scenarioAnswers,
      effMarks, jsDivQ, jsMulC, jsRoundN, jsRound]

/-- C1 witness: the percentage clause of `calculateTestScore_amended_claim`
instantiated at the specification scenario, where totalMarks = 2 ≠ 0 and
the percentage is round(0.75 / 2 * 100) = 38. -/
theorem calculateTestScore_amended_claim_witness :
    sumEffMarks scenarioQuestions ≠ 0 ∧
    (calculateTestScore scenarioAnswers scenarioQuestions).percentage
      = JSNum.val (jsRound ((calculateTestScore scenarioAnswers scenarioQuestions).obtainedMarks
          / sumEffMarks scenarioQuestions * 100)) :=
  ⟨by norm_num [sumEffMarks, scenarioQuestions, effMarks],
   (calculateTestScore_amended_claim scenarioAnswers scenarioQuestions).2.2.2.2.2.1
     (by norm_num [sumEffMarks, scenarioQuestions, effMarks])⟩

/-- A question whose `marks` field is explicitly set to 0. -/
def qMarksZero : Question :=
  { text := "q", options := ["x", "y"], answer := some 0, explanation := "",
    sectionName := "", marks := some 0, negativeMarks := none }

/-- C1 counterexample: the claim reads the marks default as "1 if unset",
but the code computes `question.marks || 1`, which also replaces an
explicit 0 by 1.  For a single unanswered question with `marks: 0` the
code returns totalMarks = 1 while the claim's formula gives 0. -/
theorem calculateTestScore_claim_totalMarks_false :
    (calculateTestScore (fun _ => none) [qMarksZero]).totalMarks = 1 ∧
    claimTotalMarks [qMarksZero] = 0 ∧
    ¬ (calculateTestScore (fun _ => none) [qMarksZero]).totalMarks
        = claimTotalMarks [qMarksZero] := by
  norm_num [calculateTestScore, scoreLoop, claimTotalMarks, effMarks, qMarksZero]

/-- C2: the claim says that on a question set with totalMarks = 0 the
Score Calculator returns percentage = 0; the code has no guard, so on the
empty question list it computes `Math.round(0/0 * 100)`, which is NaN, not
0.  (The sibling helper `calculateProgress` in the same source file does
guard `total === 0`, showing the convention the claim states.) -/
theorem calculateTestScore_empty_percentage_nan :
    (calculateTestScore (fun _ => none) []).percentage = JSNum.nan ∧
    JSNum.nan ≠ JSNum.val 0 := by
  refine ⟨?_, by simp⟩
  norm_num [calculateTestScore, scoreLoop, jsDivQ, jsMulC, jsRoundN]

/-- C3: for every answers mapping and every questions list, the
obtainedMarks returned by `calculateTestScore` is at least 0 — the code
clamps with `Math.max(0, obtainedMarks)` after the loop. -/
theorem calculateTestScore_obtainedMarks_nonneg
    (answers : ℕ → Option ℤ) (questions : List Question) :
    0 ≤ (calculateTestScore answers questions).obtainedMarks := by
  simp only [calculateTestScore]
  exact le_max_left _ _

/-- Session status: the only two states of the mock-test state machine. -/
inductive SessionStatus where
  | in_progress : SessionStatus
  | completed : SessionStatus
deriving DecidableEq, Repr

/-- A test session document in the `testSessions` collection
(`src/api/mocktest.js`, lines 46-56).  The `answers` object is modelled as
an association list from question index to chosen option.  The fields
added by the submit update (`score`, `correct`, `total`, `obtainedMarks`,
`totalMarks`) are collected into `submittedScore`; the server timestamps
(`startedAt`, `updatedAt`, `submittedAt`) are not modelled — no claim
depends on wall-clock time. -/
structure TestSession where
  userId : String
  courseId : String
  testType : String
  questions : List Question
  duration : ℤ
  status : SessionStatus
  answers : List (ℕ × ℤ)
  currentQuestion : ℤ
  submittedScore : Option ScoreResult
deriving DecidableEq, Repr

/-- A test result document in the `testResults` collection
(`src/api/mocktest.js`, lines 194-209), timestamps omitted. -/
structure TestResult where
  userId : String
  courseId : String
  testSessionId : ℕ
  score : JSNum
  correct : ℕ
  total : ℕ
  obtainedMarks : ℚ
  totalMarks : ℚ
  answers : List (ℕ × ℤ)
  questions : List Question
  testType : String
  duration : ℤ
deriving DecidableEq, Repr

/-- The durable state read and written by the mock-test routes: the
`enrollments` collection (existence-checked only, as (userId, courseId)
pairs), the `testSessions` collection and the `testResults` collection.
Firestore's generated document ids are modelled positionally: a document's
id is its index in the list, and `add` appends (so a fresh id never
collides with an existing one). -/
structure ServerState where
  enrollments : List (String × String)
  sessions : List TestSession
  results : List TestResult
deriving DecidableEq, Repr

/-- An API response: the 200 payload, or an error status with its message. -/
inductive ApiResp (α : Type) where
  | ok (data : α) : ApiResp α
  | err (status : ℕ) (msg : String) : ApiResp α
deriving DecidableEq, Repr

/-- Whether a response is a success. -/
def ApiResp.isOk {α : Type} : ApiResp α → Bool
  | ApiResp.ok _ => true
  | ApiResp.err _ _ => false

/-- JavaScript object-key assignment `answers[k] = v` on an association
list: overwrite the existing entry for `k` in place, else append. -/
def setKey : List (ℕ × ℤ) → ℕ → ℤ → List (ℕ × ℤ)
  | [], k, v => [(k, v)]
  | (k', v') :: rest, k, v =>
    if k' = k then (k, v) :: rest else (k', v') :: setKey rest k v

/-- JavaScript object lookup `answers[index]` on the association list. -/
def lookupKey (answers : List (ℕ × ℤ)) : ℕ → Option ℤ :=
  fun i => (answers.find? (fun p => p.1 == i)).map (fun p => p.2)

/-- The stubbed question generator of `src/api/mocktest.js`, lines
360-395: it ignores its arguments and returns the two hard-coded sample
questions (and is in particular never empty). -/
def generateMockTestQuestions (courseId testType : String) : List Question :=
  [ { text := "What is the capital of France?",
      options := ["London", "Berlin", "Paris", "Madrid"],
      answer := some 2,
      explanation := "Paris is the capital of France.",
      sectionName := "General Knowledge",
      marks := some 1, negativeMarks := some (1/4) },
    { text := "Which planet is known as the Red Planet?",
      options := ["Venus", "Mars", "Jupiter", "Saturn"],
      answer := some 1,
      explanation := "Mars appears red due to iron oxide on its surface.",
      sectionName := "Science",
      marks := some 1, negativeMarks := some (1/4) } ]

/-- Request body of `POST /api/mocktest/start`; absent fields are `none`
(`testType` defaults to "full" and `duration` to 1800 in the handler). -/
structure StartBody where
  courseId : Option String
  testType : Option String
  duration : Option ℤ
deriving DecidableEq, Repr

/-- The 200 payload of `POST /api/mocktest/start` (`src/api/mocktest.js`,
lines 60-66): the fresh session id and the question list, verbatim.  The
`startedAt` timestamp is not modelled. -/
structure StartData where
  testId : ℕ
  questions : List Question
  totalQuestions : ℕ
  duration : ℤ
deriving DecidableEq, Repr

/-- Truthiness of the `courseId` body field (`if (!courseId)`): absent or
the empty string are falsy. -/
def strTruthy : Option String → Bool
  | none => false
  | some s => !s.data.isEmpty

/-- The response construction of the start handler (`src/api/mocktest.js`,
lines 60-66) as a function of the generated question list. -/
def startRespOf (testId : ℕ) (questions : List Question) (duration : ℤ) : StartData :=
  { testId := testId, questions := questions,
    totalQuestions := questions.length, duration := duration }

/-- The `POST /api/mocktest/start` handler (`src/api/mocktest.js`, lines
12-74) as a state transformer.  Auth middleware is assumed passed; `uid`
is the authenticated user. -/
def startHandler (st : ServerState) (uid : String) (body : StartBody) :
    ApiResp StartData × ServerState :=
  let testType := body.testType.getD "full"
  let duration := body.duration.getD 1800
  if !strTruthy body.courseId then
    (ApiResp.err 400 "Course ID is required", st)
  else
    let courseId := body.courseId.getD ""
    if !(st.enrollments.any (fun e => e.1 == uid && e.2 == courseId)) then
      (ApiResp.err 403 "Not enrolled in this course", st)
    else
      let questions := generateMockTestQuestions courseId testType
      if questions.length == 0 then
        (ApiResp.err 404 "No questions available for this course", st)
      else
        let testSession : TestSession :=
          { userId := uid, courseId := courseId, testType := testType,
            questions := questions, duration := duration,
            status := SessionStatus.in_progress, answers := [],
            currentQuestion := 0, submittedScore := none }
        (ApiResp.ok (startRespOf st.sessions.length questions duration),
         { st with sessions := st.sessions ++ [testSession] })

/-- Request body of `POST /api/mocktest/:testId/answer`; absent fields are
`none` (the handler rejects them with 400). -/
structure AnswerBody where
  questionIndex : Option ℕ
  answer : Option ℤ
deriving DecidableEq, Repr

/-- The 200 payload of the answer handler. -/
structure AnswerData where
  message : String
  currentQuestion : ℤ
deriving DecidableEq, Repr

/-- The `POST /api/mocktest/:testId/answer` handler
(`src/api/mocktest.js`, lines 81-139) as a state transformer.  Note that
the source validates only the presence of `questionIndex` and `answer`,
never that `questionIndex` is within the session's question list. -/
def answerHandler (st : ServerState) (uid : String) (testId : ℕ) (body : AnswerBody) :
    ApiResp AnswerData × ServerState :=
  match body.questionIndex, body.answer with
  | some questionIndex, some answer =>
    match st.sessions[testId]? with
    | none => (ApiResp.err 404 "Test session not found", st)
    | some testData =>
      if testData.userId ≠ uid then
        (ApiResp.err 403 "Access denied", st)
      else if testData.status ≠ SessionStatus.in_progress then
        (ApiResp.err 400 "Test session has ended", st)
      else
        let answers := setKey testData.answers questionIndex answer
        let updated := { testData with
          answers := answers, currentQuestion := (questionIndex : ℤ) + 1 }
        (ApiResp.ok { message := "Answer submitted successfully",
                      currentQuestion := (questionIndex : ℤ) + 1 },
         { st with sessions := st.sessions.set testId updated })
  | _, _ => (ApiResp.err 400 "Question index and answer are required", st)

/-- The 200 payload of the submit handler (`src/api/mocktest.js`, lines
213-221); the `timeSpent` field is wall-clock derived and not modelled. -/
structure SubmitData where
  testResultId : ℕ
  score : JSNum
  correct : ℕ
  total : ℕ
  obtainedMarks : ℚ
  totalMarks : ℚ
deriving DecidableEq, Repr

/-- The `POST /api/mocktest/:testId/submit` handler
(`src/api/mocktest.js`, lines 146-229) as a state transformer: ownership
and in-progress checks, then the score is computed, the session is marked
completed, and one TestResult document is appended. -/
def submitHandler (st : ServerState) (uid : String) (testId : ℕ) :
    ApiResp SubmitData × ServerState :=
  match st.sessions[testId]? with
  | none => (ApiResp.err 404 "Test session not found", st)
  | some testData =>
    if testData.userId ≠ uid then
      (ApiResp.err 403 "Access denied", st)
    else if testData.status ≠ SessionStatus.in_progress then
      (ApiResp.err 400 "Test session has already been submitted", st)
    else
      let questions := testData.questions
      let answers := testData.answers
      let score := calculateTestScore (lookupKey answers) questions
      let updated := { testData with
        status := SessionStatus.completed, submittedScore := some score }
      let result : TestResult :=
        { userId := uid, courseId := testData.courseId, testSessionId := testId,
          score := score.percentage, correct := score.correct, total := score.total,
          obtainedMarks := score.obtainedMarks, totalMarks := score.totalMarks,
          answers := answers, questions := questions,
          testType := testData.testType, duration := testData.duration }
      (ApiResp.ok { testResultId := st.results.length, score := score.percentage,
                    correct := score.correct, total := score.total,
                    obtainedMarks := score.obtainedMarks, totalMarks := score.totalMarks },
       { st with sessions := st.sessions.set testId updated,
                 results := st.results ++ [result] })

/-- One client operation against the mutating mock-test routes. -/
inductive Op where
  | start (uid : String) (body : StartBody) : Op
  | answer (uid : String) (testId : ℕ) (body : AnswerBody) : Op
  | submit (uid : String) (testId : ℕ) : Op
deriving DecidableEq, Repr

/-- The state reached after one operation (the GET route never writes). -/
def applyOp (op : Op) (st : ServerState) : ServerState :=
  match op with
  | Op.start uid body => (startHandler st uid body).2
  | Op.answer uid testId body => (answerHandler st uid testId body).2
  | Op.submit uid testId => (submitHandler st uid testId).2

/-- The status of the session stored under a given id, if present. -/
def sessionStatus (st : ServerState) (testId : ℕ) : Option SessionStatus :=
  (st.sessions[testId]?).map (fun s => s.status)

theorem exists_of_sessionStatus_completed (st : ServerState) (tid : ℕ)
    (h : sessionStatus st tid = some SessionStatus.completed) :
    ∃ s, st.sessions[tid]? = some s ∧ s.status = SessionStatus.completed := by
  unfold sessionStatus at h
  cases hg : st.sessions[tid]? with
  | none => rw [hg] at h; simp at h
  | some s =>
    rw [hg] at h
    simp at h
    exact ⟨s, rfl, h⟩

/-- Shape of the start handler's state effect: either an error left the
state unchanged, or exactly one fresh session document was appended. -/
theorem startHandler_state (st : ServerState) (uid : String) (body : StartBody) :
    (startHandler st uid body).2 = st ∨
    (∃ s, (startHandler st uid body).2 =
      { st with sessions := st.sessions ++ [s] }) := by
  unfold startHandler
  dsimp only
  split
  · left; rfl
  · split
    · left; rfl
    · split
      · left; rfl
      · right; exact ⟨_, rfl⟩

/-- Shape of the answer handler's state effect: either an error left the
state unchanged, or the session at the addressed id existed, was in
progress, and was replaced in place. -/
theorem answerHandler_state (st : ServerState) (uid : String) (tid : ℕ) (body : AnswerBody) :
    (answerHandler st uid tid body).2 = st ∨
    (∃ s upd, st.sessions[tid]? = some s ∧ s.status = SessionStatus.in_progress ∧
      (answerHandler st uid tid body).2 =
        { st with sessions := st.sessions.set tid upd }) := by
  unfold answerHandler
  dsimp only
  split
  · split
    · left; rfl
    · split
      · left; rfl
      · split
        · left; rfl
        · next s hg hu hs =>
          right
          refine ⟨s, _, hg, ?_, rfl⟩
          simpa using hs
  · left; rfl

/-- Shape of the submit handler's state effect: either an error left the
state unchanged, or the session at the addressed id existed, was in
progress, was replaced in place, and result documents were appended. -/
theorem submitHandler_state (st : ServerState) (uid : String) (tid : ℕ) :
    (submitHandler st uid tid).2 = st ∨
    (∃ s upd res, st.sessions[tid]? = some s ∧ s.status = SessionStatus.in_progress ∧
      (submitHandler st uid tid).2 =
        { st with sessions := st.sessions.set tid upd,
                  results := st.results ++ res }) := by
  unfold submitHandler
  dsimp only
  split
  · left; rfl
  · split
    · left; rfl
    · split
      · left; rfl
      · next s hg hu hs =>
        right
        refine ⟨s, _, _, hg, ?_, rfl⟩
        simpa using hs

/-- Once a session is completed, no further operation changes its status:
`start` only appends a fresh document, and `answer`/`submit` refuse to
touch a session that is not in progress. -/
theorem completed_stays_completed (st : ServerState) (tid : ℕ)
    (h : sessionStatus st tid = some SessionStatus.completed) (op : Op) :
    sessionStatus (applyOp op st) tid = some SessionStatus.completed := by
  obtain ⟨s, hg, hstat⟩ := exists_of_sessionStatus_completed st tid h
  have hlt : tid < st.sessions.length := by
    rcases List.getElem?_eq_some.mp hg with ⟨hlt, -⟩
    exact hlt
  cases op with
  | start uid body =>
    simp only [applyOp]
    rcases startHandler_state st uid body with heq | ⟨s', heq⟩
    · rw [heq]; exact h
    · rw [heq]
      unfold sessionStatus
      simp only
      rw [List.getElem?_append]
      simp only [hlt, if_true]
      unfold sessionStatus at h
      exact h
  | answer uid tid' body =>
    simp only [applyOp]
    rcases answerHandler_state st uid tid' body with heq | ⟨s', upd, hg', hs', heq⟩
    · rw [heq]; exact h
    · rw [heq]
      have hne : tid' ≠ tid := by
        intro hEq
        subst hEq
        rw [hg] at hg'
        injection hg' with hg''
        subst hg''
        rw [hstat] at hs'
        exact SessionStatus.noConfusion hs'
      unfold sessionStatus
      simp only
      rw [List.getElem?_set_ne hne]
      unfold sessionStatus at h
      exact h
  | submit uid tid' =>
    simp only [applyOp]
    rcases submitHandler_state st uid tid' with heq | ⟨s', upd, res, hg', hs', heq⟩
    · rw [heq]; exact h
    · rw [heq]
      have hne : tid' ≠ tid := by
        intro hEq
        subst hEq
        rw [hg] at hg'
        injection hg' with hg''
        subst hg''
        rw [hstat] at hs'
        exact SessionStatus.noConfusion hs'
      unfold sessionStatus
      simp only
      rw [List.getElem?_set_ne hne]
      unfold sessionStatus at h
      exact h

/-- C4: if a submit succeeds, it created exactly one TestResult and moved
the session to `completed`; a second submit on the same session by the
same user returns 400 ("Test session has already been submitted") and
leaves the state untouched, and no later operation of any kind moves the
session's status back from `completed`. -/
theorem submit_twice_invalid_state (st : ServerState) (uid : String) (tid : ℕ)
    (h : (submitHandler st uid tid).1.isOk = true) :
    (submitHandler st uid tid).2.results.length = st.results.length + 1 ∧
    sessionStatus (submitHandler st uid tid).2 tid = some SessionStatus.completed ∧
    submitHandler (submitHandler st uid tid).2 uid tid
      = (ApiResp.err 400 "Test session has already been submitted",
         (submitHandler st uid tid).2) ∧
    (∀ op : Op, sessionStatus (applyOp op (submitHandler st uid tid).2) tid
      = some SessionStatus.completed) := by
  obtain ⟨s, hg, hu, hs⟩ :
      ∃ s, st.sessions[tid]? = some s ∧ ¬(s.userId ≠ uid)
        ∧ ¬(s.status ≠ SessionStatus.in_progress) := by
    unfold submitHandler at h
    split at h
    · simp [ApiResp.isOk] at h
    · next s hg =>
      split at h
      · simp [ApiResp.isOk] at h
      · next hu =>
        split at h
        · simp [ApiResp.isOk] at h
        · next hs => exact ⟨s, hg, hu, hs⟩
  have hlt : tid < st.sessions.length := by
    rcases List.getElem?_eq_some.mp hg with ⟨hlt, -⟩
    exact hlt
  have heq : submitHandler st uid tid =
      (ApiResp.ok
        ({ testResultId := st.results.length,
           score := (calculateTestScore (lookupKey s.answers) s.questions).percentage,
           correct := (calculateTestScore (lookupKey s.answers) s.questions).correct,
           total := (calculateTestScore (lookupKey s.answers) s.questions).total,
           obtainedMarks := (calculateTestScore (lookupKey s.answers) s.questions).obtainedMarks,
           totalMarks := (calculateTestScore (lookupKey s.answers) s.questions).totalMarks } : SubmitData),
       { st with
         sessions := st.sessions.set tid
           { s with
             status := SessionStatus.completed,
             submittedScore :=
               some (calculateTestScore (lookupKey s.answers) s.questions) },
         results := st.results ++
           [{ userId := uid, courseId := s.courseId, testSessionId := tid,
              score := (calculateTestScore (lookupKey s.answers) s.questions).percentage,
              correct := (calculateTestScore (lookupKey s.answers) s.questions).correct,
              total := (calculateTestScore (lookupKey s.answers) s.questions).total,
              obtainedMarks := (calculateTestScore (lookupKey s.answers) s.questions).obtainedMarks,
              totalMarks := (calculateTestScore (lookupKey s.answers) s.questions).totalMarks,
              answers := s.answers, questions := s.questions,
              testType := s.testType, duration := s.duration }] }) := by
    unfold submitHandler
    rw [hg]
    dsimp only
    rw [if_neg hu, if_neg hs]
  have hstat2 : sessionStatus (submitHandler st uid tid).2 tid
      = some SessionStatus.completed := by
    rw [heq]
    unfold sessionStatus
    simp only
    rw [List.getElem?_set_eq_of_lt _ hlt]
    rfl
  refine ⟨?_, hstat2, ?_, ?_⟩
  · rw [heq]
    simp
  · rw [heq]
    unfold submitHandler
    have h2 : (st.sessions.set tid
          { s with
            status := SessionStatus.completed,
            submittedScore :=
              some (calculateTestScore (lookupKey s.answers) s.questions) })[tid]?
        = some
          { s with
            status := SessionStatus.completed,
            submittedScore :=
              some (calculateTestScore (lookupKey s.answers) s.questions) } :=
      List.getElem?_set_eq_of_lt _ hlt
    rw [h2]
    dsimp only
    rw [if_neg hu]
    rw [if_pos (by simp)]
  · intro op
    exact completed_stays_completed _ tid hstat2 op

/-- A concrete in-progress session owned by "u1". -/
def c4Session : TestSession :=
  { userId := "u1", courseId := "c1", testType := "full",
    questions := generateMockTestQuestions "c1" "full", duration := 1800,
    status := SessionStatus.in_progress, answers := [(0, 2)],
    currentQuestion := 1, submittedScore := none }

/-- A concrete server state holding that one session. -/
def c4State : ServerState :=
  { enrollments := [("u1", "c1")], sessions := [c4Session], results := [] }

/-- C4 witness: on the concrete one-session state the first submit
succeeds and the second returns 400 with the state unchanged. -/
theorem submit_twice_invalid_state_witness :
    (submitHandler c4State "u1" 0).1.isOk = true ∧
    submitHandler (submitHandler c4State "u1" 0).2 "u1" 0
      = (ApiResp.err 400 "Test session has already been submitted",
         (submitHandler c4State "u1" 0).2) :=
  ⟨rfl, (submit_twice_invalid_state c4State "u1" 0 rfl).2.2.1⟩

/-- C9: a start request whose courseId is present but for which no
enrollment document matches (userId, courseId) fails with 403 and returns
the state unchanged — in particular no TestSession document is created. -/
theorem start_unenrolled_forbidden (st : ServerState) (uid : String) (body : StartBody)
    (hc : strTruthy body.courseId = true)
    (he : st.enrollments.any (fun e => e.1 == uid && e.2 == body.courseId.getD "") = false) :
    startHandler st uid body = (ApiResp.err 403 "Not enrolled in this course", st) := by
  unfold startHandler
  dsimp only
  rw [if_neg (by simp [hc])]
  rw [if_pos (by simp [he])]

/-- C9 witness: starting against an empty enrollments collection is
rejected with 403 and creates nothing. -/
theorem start_unenrolled_forbidden_witness :
    strTruthy (some "c1") = true ∧
    startHandler { enrollments := [], sessions := [], results := [] } "u1"
        { courseId := some "c1", testType := none, duration := none }
      = (ApiResp.err 403 "Not enrolled in this course",
         { enrollments := [], sessions := [], results := [] }) :=
  ⟨rfl, start_unenrolled_forbidden
    { enrollments := [], sessions := [], results := [] } "u1"
    { courseId := some "c1", testType := none, duration := none } rfl rfl⟩

/-- C5: the start response (`src/api/mocktest.js`, lines 60-66) returns
the generated question objects verbatim, `answer` field included: two
question lists that agree on everything except their correct-answer
indices produce distinguishable response payloads, so the correct-answer
index leaks to the client.  The specification itself flags this as a
defect of the source, and the claim (responses independent of the answer
indices) fails on the code. -/
theorem start_response_leaks_answer :
    ((generateMockTestQuestions "c1" "full").map (fun q => { q with answer := none })
      = (((generateMockTestQuestions "c1" "full").map
            (fun q => { q with answer := some 0 })).map
          (fun q => { q with answer := none }))) ∧
    startRespOf 0 (generateMockTestQuestions "c1" "full") 1800
      ≠ startRespOf 0
          ((generateMockTestQuestions "c1" "full").map
            (fun q => { q with answer := some 0 })) 1800 := by
  constructor
  · rfl
  · intro hcontra
    simp [startRespOf, generateMockTestQuestions] at hcontra

/-- A state with one enrollment of "u1" in "c1" and nothing else. -/
def c6Enrolled : ServerState :=
  { enrollments := [("u1", "c1")], sessions := [], results := [] }

/-- The state after "u1" starts a test in "c1" (a two-question session). -/
def c6Started : ServerState :=
  (startHandler c6Enrolled "u1"
    { courseId := some "c1", testType := none, duration := none }).2

/-- C6: the answer handler validates only the presence of `questionIndex`
and `answer`, never that the index is within the session's question list:
on a freshly started two-question session, answering question index 5
succeeds with 200 and records the key 5 in `answers`, violating the
claimed invariant that every key is a valid index (< 2).  The violating
state is reachable by start followed by answer. -/
theorem answer_out_of_range_recorded :
    (answerHandler c6Started "u1" 0 { questionIndex := some 5, answer := some 1 }).1
      = ApiResp.ok { message := "Answer submitted successfully", currentQuestion := 6 } ∧
    Option.map (fun s => s.answers)
        ((answerHandler c6Started "u1" 0
          { questionIndex := some 5, answer := some 1 }).2.sessions[0]?)
      = some [(5, 1)] ∧
    Option.map (fun s => s.questions.length)
        ((answerHandler c6Started "u1" 0
          { questionIndex := some 5, answer := some 1 }).2.sessions[0]?)
      = some 2 ∧
    ¬ (5 < 2) := by
  refine ⟨rfl, rfl, rfl, by omega⟩

/-- JavaScript whitespace characters trimmed by `String.prototype.trim`
(the ASCII ones; the source inputs are ASCII). -/
def jsWs (c : Char) : Bool :=
  c = ' ' || c = '\t' || c = '\n' || c = '\r' || c = '\x0B' || c = '\x0C'

/-- Model of JavaScript `s.trim()`. -/
def jsTrim (s : String) : String :=
  String.mk (((s.data.dropWhile jsWs).reverse.dropWhile jsWs).reverse)

/-- Model of JavaScript `s.substring(n)`: drop the first `n` code units. -/
def jsSubstring (s : String) (n : ℕ) : String :=
  String.mk (s.data.drop n)

/-- Prefix test on character lists, recursing on the pattern first so
that it reduces even when the subject has a symbolic tail. -/
def listIsPrefixOf : List Char → List Char → Bool
  | [], _ => true
  | _ :: _, [] => false
  | a :: as, b :: bs => a == b && listIsPrefixOf as bs

/-- Model of JavaScript `s.startsWith(p)`. -/
def jsStartsWith (s p : String) : Bool :=
  listIsPrefixOf p.data s.data

/-- Model of JavaScript `s.toUpperCase()` on ASCII input. -/
def jsToUpper (s : String) : String :=
  String.mk (s.data.map Char.toUpper)

/-- Model of JavaScript `s.toLowerCase()` on ASCII input. -/
def jsToLower (s : String) : String :=
  String.mk (s.data.map Char.toLower)

/-- Truthiness of a string value: nonempty. -/
def strNonempty (s : String) : Bool := !s.data.isEmpty

/-- Worker for `jsSplit`.  The fuel argument makes the recursion
structural; it is always called with more fuel than the input length and
each step consumes at least one character, so the fuel-exhausted branch is
unreachable. -/
def jsSplitGo (sep : List Char) : ℕ → List Char → List Char → List (List Char)
  | _, [], acc => [acc.reverse]
  | 0, _, acc => [acc.reverse]
  | fuel + 1, c :: cs, acc =>
    if listIsPrefixOf sep (c :: cs) then
      acc.reverse :: jsSplitGo sep fuel (cs.drop (sep.length - 1)) []
    else
      jsSplitGo sep fuel cs (c :: acc)

/-- Model of JavaScript `s.split(sep)` for a nonempty separator:
successive non-overlapping leftmost matches of `sep` cut `s` into
chunks. -/
def jsSplit (s : String) (sep : String) : List String :=
  (jsSplitGo sep.data (s.data.length + 1) s.data []).map String.mk

/-- Digit-prefix scanner used by the `parseFloat` model: the leading run
of ASCII digits and the rest. -/
def takeDigits : List Char → List Char × List Char
  | [] => ([], [])
  | c :: cs =>
    if c.isDigit then
      let p := takeDigits cs
      (c :: p.1, p.2)
    else ([], c :: cs)

/-- Value of a digit string. -/
def digitsToNat (ds : List Char) : ℕ :=
  ds.foldl (fun a c => 10 * a + (c.toNat - 48)) 0

/-- Mantissa of a JavaScript float literal: leading digits, optionally a
point and more digits; `none` when no digit is found on either side. -/
def parseFloatMantissa (cs : List Char) : Option (ℚ × List Char) :=
  let ip := takeDigits cs
  match ip.2 with
  | '.' :: cs2 =>
    let fp := takeDigits cs2
    if ip.1.isEmpty && fp.1.isEmpty then none
    else some (((digitsToNat ip.1 : ℚ) + (digitsToNat fp.1 : ℚ) / (10 : ℚ) ^ fp.1.length), fp.2)
  | _ =>
    if ip.1.isEmpty then none
    else some ((digitsToNat ip.1 : ℚ), ip.2)

/-- Optional signed digit run after an exponent marker; an exponent with
no digits is ignored (contributing 0), as in JavaScript `parseFloat`. -/
def parseExpDigits : List Char → ℤ
  | '+' :: rest => (digitsToNat (takeDigits rest).1 : ℤ)
  | '-' :: rest => -(digitsToNat (takeDigits rest).1 : ℤ)
  | rest => (digitsToNat (takeDigits rest).1 : ℤ)

/-- The exponent part of a JavaScript float literal, 0 when absent. -/
def parseExponent : List Char → ℤ
  | 'e' :: rest => parseExpDigits rest
  | 'E' :: rest => parseExpDigits rest
  | _ => 0

/-- Sign-stripped body of the `parseFloat` model. -/
def jsParseFloatUnsigned (cs : List Char) (neg : Bool) : JSNum :=
  if listIsPrefixOf ['I', 'n', 'f', 'i', 'n', 'i', 't', 'y'] cs then
    (if neg then JSNum.negInf else JSNum.posInf)
  else
    match parseFloatMantissa cs with
    | none => JSNum.nan
    | some mr =>
      let e := parseExponent mr.2
      let v := mr.1 * (10 : ℚ) ^ e
      JSNum.val (if neg then -v else v)

/-- Model of JavaScript `parseFloat(s)`: skip leading whitespace, parse an
optional sign, then `Infinity` or a decimal literal prefix; NaN when no
numeric prefix exists. -/
def jsParseFloat (s : String) : JSNum :=
  match s.data.dropWhile jsWs with
  | '+' :: rest => jsParseFloatUnsigned rest false
  | '-' :: rest => jsParseFloatUnsigned rest true
  | rest => jsParseFloatUnsigned rest false

/-- The JavaScript expression `parseFloat(x) || 1` (used for `|MARKS|`):
NaN and ±0 are falsy and fall back to 1; anything else is kept. -/
def jsNumOr1 : JSNum → JSNum
  | JSNum.nan => JSNum.val 1
  | JSNum.val q => if q = 0 then JSNum.val 1 else JSNum.val q
  | x => x

/-- The `['A', 'B', 'C', 'D'].indexOf(x)` conversion used by the codebase
(`src/api/utils/telegram.js`, line 238) to turn an answer letter into a
0-based index (-1 when absent). -/
def jsIndexOf (l : List String) (x : String) : ℤ :=
  match l.findIdx? (fun y => y == x) with
  | some i => (i : ℤ)
  | none => -1

/-- `text.split('---').filter(block => block.trim())`, common to both
parser variants. -/
def questionBlocksOf (text : String) : List String :=
  (jsSplit text "---").filter (fun block => strNonempty (jsTrim block))

/-- `block.trim().split('\n').filter(line => line.trim())`, common to both
parser variants. -/
def linesOf (block : String) : List String :=
  (jsSplit (jsTrim block) "\n").filter (fun line => strNonempty (jsTrim line))

namespace QuestionsApi

/-- A question record produced by the strict parser of the serverless
questions endpoint (`src/unnamed/part_003`, lines 13-22).  The `options`
object has the four fixed slots A-D, each possibly unset. -/
structure ParsedQuestion where
  id : ℕ
  question : String
  optionA : Option String
  optionB : Option String
  optionC : Option String
  optionD : Option String
  correctAnswer : String
  explanation : String
  sectionName : String
  marks : JSNum
  difficulty : String
deriving DecidableEq, Repr

/-- The fresh record built for the block at (0-based) position `index`. -/
def initQuestion (index : ℕ) : ParsedQuestion :=
  { id := index + 1, question := "", optionA := none, optionB := none,
    optionC := none, optionD := none, correctAnswer := "", explanation := "",
    sectionName := "General", marks := JSNum.val 1, difficulty := "medium" }

/-- `Object.keys(question.options).length`. -/
def optionCount (q : ParsedQuestion) : ℕ :=
  (if q.optionA.isSome then 1 else 0) + (if q.optionB.isSome then 1 else 0) +
  (if q.optionC.isSome then 1 else 0) + (if q.optionD.isSome then 1 else 0)

/-- The line dispatch of the strict parser (`src/unnamed/part_003`, lines
24-46): the first matching `|TAG|` prefix updates its field. -/
def applyLine (question : ParsedQuestion) (line : String) : ParsedQuestion :=
  if jsStartsWith line "|Q|" then
    { question with question := jsTrim (jsSubstring line 3) }
  else if jsStartsWith line "|A|" then
    { question with optionA := some (jsTrim (jsSubstring line 3)) }
  else if jsStartsWith line "|B|" then
    { question with optionB := some (jsTrim (jsSubstring line 3)) }
  else if jsStartsWith line "|C|" then
    { question with optionC := some (jsTrim (jsSubstring line 3)) }
  else if jsStartsWith line "|D|" then
    { question with optionD := some (jsTrim (jsSubstring line 3)) }
  else if jsStartsWith line "|ANS|" then
    { question with correctAnswer := jsToUpper (jsTrim (jsSubstring line 5)) }
  else if jsStartsWith line "|EXP|" then
    { question with explanation := jsTrim (jsSubstring line 5) }
  else if jsStartsWith line "|SECTION|" then
    { question with sectionName := jsTrim (jsSubstring line 9) }
  else if jsStartsWith line "|MARKS|" then
    { question with marks := jsNumOr1 (jsParseFloat (jsTrim (jsSubstring line 7))) }
  else if jsStartsWith line "|DIFFICULTY|" then
    { question with difficulty := jsToLower (jsTrim (jsSubstring line 12)) }
  else question

/-- The record built from one block. -/
def buildQuestion (index : ℕ) (block : String) : ParsedQuestion :=
  (linesOf block).foldl applyLine (initQuestion index)

/-- The strict validation (`src/unnamed/part_003`, lines 49-52): nonempty
question text, at least two options, and a (truthy) answer letter among
A-D. -/
def validQuestion (q : ParsedQuestion) : Bool :=
  strNonempty q.question && decide (2 ≤ optionCount q) &&
  strNonempty q.correctAnswer && ["A", "B", "C", "D"].contains q.correctAnswer

/-- Embedding of the strict `parseQuestionsFromText`
(`src/unnamed/part_003`, lines 7-58). -/
def parseQuestionsFromText (text : String) : List ParsedQuestion :=
  (questionBlocksOf text).enum.foldl
    (fun questions p =>
      if validQuestion (buildQuestion p.1 p.2) then questions ++ [buildQuestion p.1 p.2]
      else questions) []

end QuestionsApi

namespace MockTestsApi

/-- A question record produced by the lenient parser of
`src/api/mocktests.js` (lines 36-43): no section/difficulty fields, and
`marks` is fixed at 1 (no `|MARKS|` handling). -/
structure ParsedQuestion where
  id : ℕ
  question : String
  optionA : Option String
  optionB : Option String
  optionC : Option String
  optionD : Option String
  correctAnswer : String
  explanation : String
  marks : ℚ
deriving DecidableEq, Repr

/-- The fresh record built for the block at (0-based) position `index`. -/
def initQuestion (index : ℕ) : ParsedQuestion :=
  { id := index + 1, question := "", optionA := none, optionB := none,
    optionC := none, optionD := none, correctAnswer := "", explanation := "",
    marks := 1 }

/-- `Object.keys(question.options).length`. -/
def optionCount (q : ParsedQuestion) : ℕ :=
  (if q.optionA.isSome then 1 else 0) + (if q.optionB.isSome then 1 else 0) +
  (if q.optionC.isSome then 1 else 0) + (if q.optionD.isSome then 1 else 0)

/-- The line dispatch of the lenient parser (`src/api/mocktests.js`, lines
45-61); note the answer letter is trimmed but NOT uppercased here. -/
def applyLine (question : ParsedQuestion) (line : String) : ParsedQuestion :=
  if jsStartsWith line "|Q|" then
    { question with question := jsTrim (jsSubstring line 3) }
  else if jsStartsWith line "|A|" then
    { question with optionA := some (jsTrim (jsSubstring line 3)) }
  else if jsStartsWith line "|B|" then
    { question with optionB := some (jsTrim (jsSubstring line 3)) }
  else if jsStartsWith line "|C|" then
    { question with optionC := some (jsTrim (jsSubstring line 3)) }
  else if jsStartsWith line "|D|" then
    { question with optionD := some (jsTrim (jsSubstring line 3)) }
  else if jsStartsWith line "|ANS|" then
    { question with correctAnswer := jsTrim (jsSubstring line 5) }
  else if jsStartsWith line "|EXP|" then
    { question with explanation := jsTrim (jsSubstring line 5) }
  else question

/-- The record built from one block. -/
def buildQuestion (index : ℕ) (block : String) : ParsedQuestion :=
  (linesOf block).foldl applyLine (initQuestion index)

/-- The lenient validation (`src/api/mocktests.js`, line 64): nonempty
question text and at least two options; no answer requirement. -/
def validQuestion (q : ParsedQuestion) : Bool :=
  strNonempty q.question && decide (2 ≤ optionCount q)

/-- Embedding of the lenient `parseQuestionsFromText`
(`src/api/mocktests.js`, lines 30-70). -/
def parseQuestionsFromText (text : String) : List ParsedQuestion :=
  (questionBlocksOf text).enum.foldl
    (fun questions p =>
      if validQuestion (buildQuestion p.1 p.2) then questions ++ [buildQuestion p.1 p.2]
      else questions) []

end MockTestsApi

theorem foldl_push_filter {α β : Type} (f : α → β) (p : β → Bool) (l : List α)
    (acc : List β) :
    l.foldl (fun qs x => if p (f x) then qs ++ [f x] else qs) acc
      = acc ++ (l.map f).filter p := by
  induction l generalizing acc with
  | nil => simp
  | cons a l ih =>
    simp only [List.foldl_cons, List.map_cons, List.filter_cons]
    by_cases hp : p (f a)
    · rw [ih]
      simp [hp]
    · rw [ih]
      simp [hp]

/-- The strict parser is the block list, enumerated, built and
filtered by the strict validation. -/
theorem questionsApi_parse_eq (text : String) :
    QuestionsApi.parseQuestionsFromText text
      = ((questionBlocksOf text).enum.map
          (fun p => QuestionsApi.buildQuestion p.1 p.2)).filter
            QuestionsApi.validQuestion := by
  have h := foldl_push_filter (fun p : ℕ × String => QuestionsApi.buildQuestion p.1 p.2)
    QuestionsApi.validQuestion (questionBlocksOf text).enum []
  simpa [QuestionsApi.parseQuestionsFromText] using h

/-- The lenient parser is the block list, enumerated, built and
filtered by the lenient validation. -/
theorem mockTestsApi_parse_eq (text : String) :
    MockTestsApi.parseQuestionsFromText text
      = ((questionBlocksOf text).enum.map
          (fun p => MockTestsApi.buildQuestion p.1 p.2)).filter
            MockTestsApi.validQuestion := by
  have h := foldl_push_filter (fun p : ℕ × String => MockTestsApi.buildQuestion p.1 p.2)
    MockTestsApi.validQuestion (questionBlocksOf text).enum []
  simpa [MockTestsApi.parseQuestionsFromText] using h

/-- C8: in both parser variants, a delimiter-separated block contributes
a question exactly when the record built from it passes the variant's
validation — strict: nonempty question text, at least two options, and a
trimmed-and-uppercased answer letter in {A,B,C,D}; lenient: nonempty
question text and at least two options.  Failing blocks are silently
dropped and all other blocks still parse, in order: each parse result is
the filtered map over the enumerated block list. -/
theorem parse_block_validation (text : String) :
    (QuestionsApi.parseQuestionsFromText text
      = ((questionBlocksOf text).enum.map
          (fun p => QuestionsApi.buildQuestion p.1 p.2)).filter
            QuestionsApi.validQuestion) ∧
    (MockTestsApi.parseQuestionsFromText text
      = ((questionBlocksOf text).enum.map
          (fun p => MockTestsApi.buildQuestion p.1 p.2)).filter
            MockTestsApi.validQuestion) :=
  ⟨questionsApi_parse_eq text, mockTestsApi_parse_eq text⟩

/-- The specification's parser round-trip block. -/
def sampleBlock : String :=
  "|Q|2+2?\n|A|3\n|B|4\n|C|5\n|D|6\n|ANS|B\n|EXP|basic math\n|MARKS|2"

/-- C7 counterexample: the strict parser stores the answer LETTER (here
the string "B"), not a 0-based index — no conversion to an index happens
in `src/unnamed/part_003` (it happens only in the `parseMockTest` variant
of `src/api/utils/telegram.js`).  So the parsed record's correct answer is
"B", not the index 1. -/
theorem parse_sample_letter_not_index :
    (QuestionsApi.parseQuestionsFromText sampleBlock).map (fun q => q.correctAnswer)
      = ["B"] ∧ "B" ≠ "1" :=
  ⟨rfl, by decide⟩

/-- C7 (amended): parsing the specification's block with the strict
parser yields exactly one record with question text "2+2?", options
A="3", B="4", C="5", D="6", correct-answer letter "B" (which the
codebase's letter-to-index conversion maps to the 0-based index 1),
explanation "basic math", and marks 2. -/
theorem parse_sample_block :
    QuestionsApi.parseQuestionsFromText sampleBlock
      = [{ id := 1, question := "2+2?", optionA := some "3", optionB := some "4",
           optionC := some "5", optionD := some "6", correctAnswer := "B",
           explanation := "basic math", sectionName := "General",
           marks := JSNum.val 2, difficulty := "medium" }] ∧
    jsIndexOf ["A", "B", "C", "D"] "B" = 1 := by
  constructor
  · have h1 : QuestionsApi.parseQuestionsFromText sampleBlock
        = [{ id := 1, question := "2+2?", optionA := some "3", optionB := some "4",
             optionC := some "5", optionD := some "6", correctAnswer := "B",
             explanation := "basic math", sectionName := "General",
             marks := jsNumOr1 (jsParseFloat "2"), difficulty := "medium" }] := rfl
    rw [h1]
    have h2 : jsNumOr1 (jsParseFloat "2") = JSNum.val 2 := by
      have h3 : jsParseFloat "2" = JSNum.val ((2 : ℚ) * 10 ^ (0 : ℤ)) := rfl
      have h4 : ((2 : ℚ) * 10 ^ (0 : ℤ)) = 2 := by norm_num
      rw [h3, h4]
      norm_num [jsNumOr1]
    rw [h2]
  · rfl

/-- A line that begins with the `|MARKS|` tag, with arbitrary remainder. -/
def marksLine (rest : List Char) : String :=
  String.mk ('|' :: 'M' :: 'A' :: 'R' :: 'K' :: 'S' :: '|' :: rest)

theorem jsNumOr1_ne_zero (x : JSNum) : jsNumOr1 x ≠ JSNum.val 0 := by
  cases x with
  | nan => simp [jsNumOr1]
  | posInf => simp [jsNumOr1]
  | negInf => simp [jsNumOr1]
  | val q =>
    by_cases hq : q = 0
    · simp [jsNumOr1, hq]
    · simp [jsNumOr1, hq]

theorem applyLine_marks_ne_zero (q : QuestionsApi.ParsedQuestion) (line : String)
    (h : q.marks ≠ JSNum.val 0) :
    (QuestionsApi.applyLine q line).marks ≠ JSNum.val 0 := by
  unfold QuestionsApi.applyLine
  repeat' split
  all_goals first
    | exact h
    | simpa using h
    | simpa using jsNumOr1_ne_zero (jsParseFloat (jsTrim (jsSubstring line 7)))

theorem buildQuestion_marks_ne_zero (index : ℕ) (block : String) :
    (QuestionsApi.buildQuestion index block).marks ≠ JSNum.val 0 := by
  have hfold : ∀ (lines : List String) (q : QuestionsApi.ParsedQuestion),
      q.marks ≠ JSNum.val 0 →
      (lines.foldl QuestionsApi.applyLine q).marks ≠ JSNum.val 0 := by
    intro lines
    induction lines with
    | nil => intro q h; simpa using h
    | cons l ls ih =>
      intro q h
      simp only [List.foldl_cons]
      exact ih _ (applyLine_marks_ne_zero q l h)
  exact hfold _ _ (by simp [QuestionsApi.initQuestion])

/-- C10: a `|MARKS|` line whose value parses to NaN or to 0 sets marks to
1 (the code computes `parseFloat(...) || 1`, and NaN and 0 are falsy);
consequently no question produced by the strict parser ever has marks
equal to 0 — a `|MARKS|0` line is overridden to 1, not kept. -/
theorem marks_zero_or_nan_defaults_one :
    (∀ (q : QuestionsApi.ParsedQuestion) (rest : List Char),
      (jsParseFloat (jsTrim (String.mk rest)) = JSNum.nan ∨
       jsParseFloat (jsTrim (String.mk rest)) = JSNum.val 0) →
      (QuestionsApi.applyLine q (marksLine rest)).marks = JSNum.val 1) ∧
    (∀ (text : String) (q : QuestionsApi.ParsedQuestion),
      q ∈ QuestionsApi.parseQuestionsFromText text → q.marks ≠ JSNum.val 0) := by
  constructor
  · intro q rest hv
    have hred : (QuestionsApi.applyLine q (marksLine rest)).marks
        = jsNumOr1 (jsParseFloat (jsTrim (String.mk rest))) := rfl
    rcases hv with h | h
    · rw [hred, h]
      rfl
    · rw [hred, h]
      norm_num [jsNumOr1]
  · intro text q hq
    rw [questionsApi_parse_eq] at hq
    rcases List.mem_filter.mp hq with ⟨hmem, -⟩
    rcases List.mem_map.mp hmem with ⟨p, -, rfl⟩
    exact buildQuestion_marks_ne_zero p.1 p.2

/-- C10 witness: the line `|MARKS|0` parses to 0 (falsy) and the
resulting marks value is 1. -/
theorem marks_zero_or_nan_defaults_one_witness :
    (jsParseFloat (jsTrim (String.mk ['0'])) = JSNum.nan ∨
     jsParseFloat (jsTrim (String.mk ['0'])) = JSNum.val 0) ∧
    (QuestionsApi.applyLine (QuestionsApi.initQuestion 0) (marksLine ['0'])).marks
      = JSNum.val 1 :=
  ⟨Or.inr (by
      have h1 : jsParseFloat (jsTrim (String.mk ['0']))
          = JSNum.val ((0 : ℚ) * 10 ^ (0 : ℤ)) := rfl
      rw [h1]
      norm_num),
   marks_zero_or_nan_defaults_one.1 (QuestionsApi.initQuestion 0) ['0']
    (Or.inr (by
      have h1 : jsParseFloat (jsTrim (String.mk ['0']))
          = JSNum.val ((0 : ℚ) * 10 ^ (0 : ℤ)) := rfl
      rw [h1]
      norm_num))⟩
